import Mathlib

/-!
Verification of the porto-multisigner-ui intent lifecycle and submission
encoding.  The definitions below are a shallow embedding of the TypeScript
source: the intent record and store (`src/app/api/_lib/store.ts`), the
intent-creation route (`src/app/api/intents/route.ts`), the signature
collection route (`/api/intents/[id]/sign`), the submission route
(`src/app/api/intents/[id]/submit/route.ts`), and the external-key-hash
derivation (`lib/permissions` helpers).  Byte strings are lists of naturals
(one per byte); on-chain reads and writes are an explicit oracle record, with
`Option` results standing for calls that may throw.
-/

namespace PortoMultisig

/-- Byte strings (`Hex` values in the source, one natural per byte). -/
abbrev Bytes := List Nat

/-- A single call of an intent: `{ to, value, data }` from `store.ts`. -/
structure Call where
  «to» : Bytes
  value : Nat
  calldata : Bytes
deriving DecidableEq

/-- One collected signature: `{ ownerKeyHash, sig, at }` from `store.ts`. -/
structure SigEntry where
  ownerKeyHash : Bytes
  sig : Bytes
  atTime : Nat
deriving DecidableEq

/-- Intent status: `'collecting' | 'submitted' | 'confirmed' | 'failed'`. -/
inductive Status where
  | collecting
  | submitted
  | confirmed
  | failed
deriving DecidableEq

/-- The intent record from `store.ts`. -/
structure Intent where
  id : String
  account : Bytes
  chainId : Nat
  externalKeyHash : Bytes
  seqKey : Nat
  nonce : Nat
  digest : Bytes
  calls : List Call
  threshold : Nat
  owners : List Bytes
  signatures : List SigEntry
  status : Status
  txHash : Option Bytes
deriving DecidableEq

/-- On-chain oracle: the contract reads and writes the routes perform via
`publicClient` / `walletClient`.  A `none` result models a thrown RPC or
contract error.  `relayerAvailable` models whether `RELAYER_PRIVATE_KEY` is
configured (whether `walletClient` exists). -/
structure Chain where
  getConfig : Bytes → Bytes → Bytes → Nat × List Bytes
  getNonce : Bytes → Nat → Nat
  computeDigest : Bytes → List Call → Nat → Option Bytes
  unwrapAndValidate : Bytes → Bytes → Bytes → Option (Bool × Bytes)
  relayerAvailable : Bool
  broadcast : Bytes → Bytes → Option Bytes
  receiptSuccess : Bytes → Option Bool

/-! ### ABI encoding helpers (the `viem` calls made by the source)

`encodeAbiParameters` and `toHex(..., { size: 32 })` follow the standard
Ethereum ABI head/tail encoding; these definitions model exactly the
parameter shapes the source uses. -/

/-- Big-endian byte encoding of `n` into `size` bytes
(`toHex(n, { size })`). -/
def beBytes (size n : Nat) : Bytes :=
  (List.range size).map (fun i => n / 256 ^ (size - 1 - i) % 256)

/-- One 32-byte ABI word holding the natural `n`. -/
def word (n : Nat) : Bytes := beBytes 32 n

/-- Left-pad a byte string (an address, say) to one 32-byte word. -/
def wordOfBytes (b : Bytes) : Bytes := List.replicate (32 - b.length) 0 ++ b

/-- Right-pad a byte string with zeros to a multiple of 32 bytes. -/
def padRight32 (b : Bytes) : Bytes :=
  b ++ List.replicate ((32 - b.length % 32) % 32) 0

/-- ABI tail encoding of a dynamic `bytes` value: length word then padded
contents. -/
def encBytesTail (b : Bytes) : Bytes := word b.length ++ padRight32 b

/-- ABI encoding of a dynamic array given the tail encodings of its
(dynamic) elements: count word, one offset word per element (offsets
relative to the start of the offset block), then the element tails. -/
def encDynArray (tails : List Bytes) : Bytes :=
  let k := tails.length
  let offs := (List.range k).map
    (fun i => 32 * k + (((tails.take i).map List.length).sum))
  word k ++ (offs.map word).flatten ++ tails.flatten

/-- `encodeAbiParameters([{ type: 'bytes[]' }], [xs])`: a single dynamic
parameter, so a head offset word of 32 followed by the array tail. -/
def encodeBytesArray (xs : List Bytes) : Bytes :=
  word 32 ++ encDynArray (xs.map encBytesTail)

/-- ABI tail encoding of one `(address to, uint256 value, bytes data)`
tuple: two static words, the offset word (96) of the inner `bytes`, then
its tail. -/
def encCallTail (c : Call) : Bytes :=
  wordOfBytes c.«to» ++ word c.value ++ word 96 ++ encBytesTail c.calldata

/-- `encodeAbiParameters([tuple[] (to,value,data), bytes], [calls, opData])`:
two dynamic parameters, heads at offsets 64 and `64 + |calls tail|`. -/
def encodeCallsAndBytes (calls : List Call) (opData : Bytes) : Bytes :=
  let callsTail := encDynArray (calls.map encCallTail)
  word 64 ++ word (64 + callsTail.length) ++ callsTail ++ encBytesTail opData

/-! ### External key hash derivation (`externalPublicKey`,
`computeExternalKeyHash`) -/

/-- `externalPublicKey(multisig, salt12) = concatHex([multisig, salt12])`:
20-byte policy-contract address followed by the 12-byte salt. -/
def externalPublicKey (multisig salt12 : Bytes) : Bytes := multisig ++ salt12

/-- `encodeAbiParameters([uint8, bytes32], [n, b])`: both parameters are
static, so one word for the `uint8` followed by the 32-byte value. -/
def encodeUint8Bytes32 (n : Nat) (b : Bytes) : Bytes := word n ++ b

/-- `computeExternalKeyHash(multisig, salt12)`: keccak of the ABI encoding
of the External key type discriminant (3) with the keccak of the public
key bytes.  `keccak` is the hash oracle (keccak256 from viem). -/
def computeExternalKeyHash (keccak : Bytes → Bytes) (multisig salt12 : Bytes) : Bytes :=
  keccak (encodeUint8Bytes32 3 (keccak (externalPublicKey multisig salt12)))

/-- The `externalKeyHash` field of the record returned by
`encodeAuthorizeExternalExecute({ account, multisig, salt12 })`.  The
source computes it as `computeExternalKeyHash(multisig, salt12)`; the other
fields (`to`, `data`) are the authorize-call payload and are not needed by
any claim here. -/
def encodeAuthorizeExternalKeyHash (keccak : Bytes → Bytes)
    (_account multisig salt12 : Bytes) : Bytes :=
  computeExternalKeyHash keccak multisig salt12

/-! ### Intent creation (`POST /api/intents`) -/

/-- Outcome of the creation route: no owners configured (400), an RPC read
threw (the route has no handler, so nothing is stored), or the stored
intent. -/
inductive CreateResult where
  | noOwners
  | rpcError
  | created (intent : Intent)
deriving DecidableEq

/-- `POST /api/intents`: read `(threshold, ownerKeyHashes)` from the
policy contract's `getConfig`, reject if the owner list is empty, read the
nonce for the requested sequence key, compute the digest on-chain, and
store the intent with status `collecting` and no signatures. -/
def createIntent (ch : Chain) (id : String) (account : Bytes) (chainId : Nat)
    (externalKeyHash : Bytes) (seqKey : Nat) (calls : List Call)
    (multisigAddress : Bytes) : CreateResult :=
  let cfg := ch.getConfig multisigAddress account externalKeyHash
  if cfg.2.length = 0 then .noOwners
  else
    let nonce := ch.getNonce account seqKey
    match ch.computeDigest account calls nonce with
    | none => .rpcError
    | some digest =>
        .created
          { id := id, account := account, chainId := chainId
            externalKeyHash := externalKeyHash, seqKey := seqKey
            nonce := nonce, digest := digest, calls := calls
            threshold := cfg.1, owners := cfg.2, signatures := []
            status := .collecting, txHash := none }

/-! ### Signature validation and collection (`POST /api/intents/[id]/sign`) -/

/-- Result of one `unwrapAndValidateSignature` attempt (`tryOnce` in the
source): a thrown call is caught and reported as invalid with an empty
owner key hash. -/
structure ValRes where
  ok : Bool
  ownerKh : Bytes
  sig : Bytes
deriving DecidableEq

/-- `tryOnce(sig)`: call `unwrapAndValidateSignature(digest, sig)` on the
account, catching errors. -/
def tryOnce (ch : Chain) (account digest sig : Bytes) : ValRes :=
  match ch.unwrapAndValidate account digest sig with
  | some (ok, kh) => ⟨ok, kh, sig⟩
  | none => ⟨false, [], sig⟩

/-- The source flips the final hex byte of the wrapped signature:
`'01'` becomes `'00'`, and any other final byte becomes `'01'`. -/
def flipLastByte (w : Bytes) : Bytes :=
  w.dropLast ++ [if w.getLast? = some 1 then 0 else 1]

/-- `validateWrappedSignature(account, digest, wrapped)`: try the bytes as
received; if invalid and the hex string has at least
`2 + 64 + 64 + 64 + 2 = 196` characters (at least 97 bytes), retry once
with the final prehash byte flipped; return the retry result if it
validates, the first attempt otherwise. -/
def validateWrappedSignature (ch : Chain) (account digest wrapped : Bytes) : ValRes :=
  let res := tryOnce ch account digest wrapped
  if res.ok then res
  else if wrapped.length < 97 then res
  else
    let res2 := tryOnce ch account digest (flipLastByte wrapped)
    if res2.ok then res2 else res

/-- Response of the sign route (excluding the transport-level not-found and
missing-body cases, which do not touch the intent). -/
inductive SignResult where
  | digestMismatch
  | invalidSignature
  | signerNotAuthorized
  | duplicate (k M : Nat)
  | added (k M : Nat) (ready : Bool)
deriving DecidableEq

/-- The defensive digest check of the sign route: recompute the digest
on-chain from the stored calls and nonce and compare with the stored
digest.  A thrown read is caught and only logged, so the check passes. -/
def digestCheckPasses (ch : Chain) (I : Intent) : Bool :=
  match ch.computeDigest I.account I.calls I.nonce with
  | some d => d = I.digest
  | none => true

/-- `POST /api/intents/[id]/sign`: digest check, wrapped-signature
validation with the prehash retry, owners membership check, duplicate
suppression, and append of `(ownerKeyHash, validated sig bytes, now)`. -/
def submitSignature (ch : Chain) (I : Intent) (wrapped : Bytes) (now : Nat) :
    SignResult × Intent :=
  if digestCheckPasses ch I = false then (.digestMismatch, I)
  else
    let checked := validateWrappedSignature ch I.account I.digest wrapped
    if checked.ok = false then (.invalidSignature, I)
    else if checked.ownerKh ∉ I.owners then (.signerNotAuthorized, I)
    else if ∃ s ∈ I.signatures, s.ownerKeyHash = checked.ownerKh then
      (.duplicate I.signatures.length I.threshold, I)
    else
      let sigs := I.signatures ++ [⟨checked.ownerKh, checked.sig, now⟩]
      (.added sigs.length I.threshold (decide (I.threshold ≤ sigs.length)),
        { I with signatures := sigs })

/-! ### Submission (`POST /api/intents/[id]/submit`) -/

/-- Response of the submit route (excluding the transport-level not-found
case). -/
inductive SubmitResult where
  | relayerMissing
  | notEnoughSignatures
  | nonceMismatch (intentNonce currentNonce : Nat)
  | broadcastFailed
  | ok (txHash : Bytes) (success : Bool)
deriving DecidableEq

/-- What the submit route did: the response, the resulting intent record,
and the execution payload passed to `writeContract`, when a broadcast was
attempted. -/
structure SubmitOutcome where
  result : SubmitResult
  intent : Intent
  broadcasted : Option Bytes
deriving DecidableEq

/-- `POST /api/intents/[id]/submit`: require the relayer, re-check the
threshold, build the execution payload (aggregated signatures, outer
envelope with the policy key hash and a 0x00 prehash byte, nonce-prefixed
opData, final ABI tuple), compare the live nonce of sequence key 0 with
the stored nonce, then broadcast; on success record the transaction hash
and move to `submitted` and then `confirmed`/`failed` from the receipt; a
thrown broadcast or receipt wait moves the status to `failed`. -/
def submitIntent (ch : Chain) (I : Intent) : SubmitOutcome :=
  if ch.relayerAvailable = false then ⟨.relayerMissing, I, none⟩
  else if I.signatures.length < I.threshold then ⟨.notEnoughSignatures, I, none⟩
  else
    let aggregated := encodeBytesArray (I.signatures.map SigEntry.sig)
    let outer := aggregated ++ I.externalKeyHash ++ [0]
    let opData := word I.nonce ++ outer
    let executionData := encodeCallsAndBytes I.calls opData
    let currentNonce := ch.getNonce I.account 0
    if I.nonce ≠ currentNonce then
      ⟨.nonceMismatch I.nonce currentNonce, I, none⟩
    else
      match ch.broadcast I.account executionData with
      | none => ⟨.broadcastFailed, { I with status := .failed }, some executionData⟩
      | some h =>
          match ch.receiptSuccess h with
          | none =>
              ⟨.broadcastFailed,
                { I with status := .failed, txHash := some h }, some executionData⟩
          | some success =>
              let st : Status := if success then .confirmed else .failed
              ⟨.ok h success, { I with status := st, txHash := some h },
                some executionData⟩

/-! ### Concrete instances used by counterexamples and witnesses -/

/-- A 20-byte account address. -/
def acct0 : Bytes := List.replicate 20 1

/-- A 32-byte policy key hash. -/
def keyHash0 : Bytes := List.replicate 32 2

/-- Owner key hash 1. -/
def owner1 : Bytes := List.replicate 32 3

/-- Owner key hash 2. -/
def owner2 : Bytes := List.replicate 32 4

/-- A 32-byte digest. -/
def digest0 : Bytes := List.replicate 32 7

/-- A baseline oracle: one-owner config with threshold 1, nonce 5 on every
sequence, digest reads return `digest0`, signature validation fails,
the relayer is configured, broadcasts succeed with hash `[170]` and
confirm. -/
def baseChain : Chain :=
  { getConfig := fun _ _ _ => (1, [owner1])
    getNonce := fun _ _ => 5
    computeDigest := fun _ _ _ => some digest0
    unwrapAndValidate := fun _ _ _ => some (false, [])
    relayerAvailable := true
    broadcast := fun _ _ => some [170]
    receiptSuccess := fun _ => some true }

/-- A baseline stored intent: threshold 1, one owner, one collected
signature, status `collecting`. -/
def baseIntent : Intent :=
  { id := "intent-1", account := acct0, chainId := 84532
    externalKeyHash := keyHash0, seqKey := 0, nonce := 5, digest := digest0
    calls := [⟨List.replicate 20 8, 5, []⟩], threshold := 1, owners := [owner1]
    signatures := [⟨owner1, [9], 0⟩], status := .collecting, txHash := none }

/-- Oracle whose signature validation accepts exactly the one-byte string
`[1]`, recovering `owner1`. -/
def flipChain : Chain :=
  { baseChain with
    unwrapAndValidate := fun _ _ s =>
      if s = [1] then some (true, owner1) else some (false, []) }

/-- The baseline intent with no collected signatures. -/
def emptyIntent : Intent := { baseIntent with signatures := [] }

/-- The baseline intent in the terminal `failed` state. -/
def failedIntent : Intent := { baseIntent with status := .failed }

/-- Oracle whose policy-config read returns threshold 0 with one owner. -/
def zeroThreshChain : Chain :=
  { baseChain with getConfig := fun _ _ _ => (0, [owner1]) }

/-- Oracle whose signature validation always succeeds, recovering
`owner1`. -/
def validChain : Chain :=
  { baseChain with unwrapAndValidate := fun _ _ _ => some (true, owner1) }

/-- Oracle whose signature validation always succeeds, recovering the
non-owner `owner2`. -/
def unauthChain : Chain :=
  { baseChain with unwrapAndValidate := fun _ _ _ => some (true, owner2) }

/-- The baseline intent with no signatures and threshold 2. -/
def thresh2Intent : Intent := { baseIntent with signatures := [], threshold := 2 }

/-- A 97-byte wrapped signature (the shortest length the sign route will
retry with a flipped prehash byte). -/
def w97 : Bytes := List.replicate 97 0

/-- Oracle that validates exactly the signatures whose final byte is 1,
recovering `owner1`. -/
def lastOneChain : Chain :=
  { baseChain with
    unwrapAndValidate := fun _ _ s =>
      if s.getLast? = some 1 then some (true, owner1) else some (false, []) }

/-- Oracle where sequence 0 has nonce 6 while every other sequence has
nonce 5. -/
def seqChainA : Chain :=
  { baseChain with getNonce := fun _ k => if k = 0 then 6 else 5 }

/-- Oracle where sequence 0 has nonce 5 while every other sequence has
nonce 9. -/
def seqChainB : Chain :=
  { baseChain with getNonce := fun _ k => if k = 0 then 5 else 9 }

/-- Oracle whose live nonce is 6 on every sequence. -/
def nonce6Chain : Chain := { baseChain with getNonce := fun _ _ => 6 }

/-- The intent record `createIntent baseChain "i" …` stores. -/
def createdBase : Intent :=
  { id := "i", account := acct0, chainId := 84532
    externalKeyHash := keyHash0, seqKey := 0, nonce := 5, digest := digest0
    calls := [], threshold := 1, owners := [owner1], signatures := []
    status := .collecting, txHash := none }

/-- The intent stored by a successful creation, if any. -/
def createdIntent : CreateResult → Option Intent
  | .created I => some I
  | _ => none

/-- A stand-in hash oracle for witnesses: maps a byte string to the word
holding its length. -/
def hashLen : Bytes → Bytes := fun b => word b.length

/-- A 20-byte policy contract address. -/
def msig20 : Bytes := List.replicate 20 6

/-- A 12-byte salt. -/
def salt12 : Bytes := List.replicate 12 0

/-- The baseline intent on sequence key 1. -/
def seq1Intent : Intent := { baseIntent with seqKey := 1 }

/-! ### Helper lemmas -/

/-- The defensive digest check only reads the account, calls, nonce and
digest fields, so replacing the signature list does not change it. -/
theorem digestCheckPasses_setSigs (ch : Chain) (I : Intent) (s : List SigEntry) :
    digestCheckPasses ch { I with signatures := s } = digestCheckPasses ch I := rfl

/-- A validation attempt reports back the exact bytes it was given. -/
theorem tryOnce_sig (ch : Chain) (account digest sig : Bytes) :
    (tryOnce ch account digest sig).sig = sig := by
  unfold tryOnce
  split <;> rfl

/-! ### Claims -/

/-- C2, counterexample: when the on-chain policy-config read returns
threshold 0 with a single owner, creation succeeds and stores threshold 0,
so `1 ≤ threshold` fails even though the owner list is non-empty. -/
theorem create_threshold_bound_cex :
    (createdIntent (createIntent zeroThreshChain "i" acct0 84532 keyHash0 0 [] acct0)).map
        Intent.threshold = some 0
    ∧ (createdIntent (createIntent zeroThreshChain "i" acct0 84532 keyHash0 0 [] acct0)).map
        (fun I => I.owners.length) = some 1 := by
  exact ⟨rfl, rfl⟩

/-- C2, amended: creation stores the threshold and owner list exactly as
returned by the policy-config read, checking only that the owner list is
non-empty; hence `1 ≤ threshold ≤ |owners|` holds after creation whenever
the config read returns a threshold in that range. -/
theorem create_threshold_bound (ch : Chain) (id : String) (account : Bytes)
    (chainId : Nat) (ekh : Bytes) (seqKey : Nat) (calls : List Call)
    (ms : Bytes) (I : Intent)
    (hlo : 1 ≤ (ch.getConfig ms account ekh).1)
    (hhi : (ch.getConfig ms account ekh).1 ≤ (ch.getConfig ms account ekh).2.length)
    (h : createIntent ch id account chainId ekh seqKey calls ms = .created I) :
    1 ≤ I.threshold ∧ I.threshold ≤ I.owners.length := by
  simp only [createIntent] at h
  split at h
  · exact absurd h (by simp)
  · split at h
    · exact absurd h (by simp)
    · injection h with h
      rw [← h]
      exact ⟨hlo, hhi⟩

/-- C2, witness for the amended claim at the baseline oracle. -/
theorem create_threshold_bound_witness :
    1 ≤ createdBase.threshold ∧ createdBase.threshold ≤ createdBase.owners.length :=
  create_threshold_bound baseChain "i" acct0 84532 keyHash0 0 [] acct0
    createdBase (by decide) (by decide) (by decide)

/-- C4: once the threshold is met, a live sequence-0 nonce differing from
the stored nonce makes submission fail with a nonce-mismatch error that
carries both nonces, with no broadcast attempted and the intent record
unchanged. -/
theorem submit_nonce_mismatch (ch : Chain) (I : Intent)
    (hr : ch.relayerAvailable = true)
    (ht : I.threshold ≤ I.signatures.length)
    (hn : I.nonce ≠ ch.getNonce I.account 0) :
    submitIntent ch I = ⟨.nonceMismatch I.nonce (ch.getNonce I.account 0), I, none⟩ := by
  simp only [submitIntent]
  rw [if_neg (by simp [hr]), if_neg (by omega), if_pos hn]

/-- C4, witness: a threshold-met intent with stored nonce 5 against a live
nonce of 6. -/
theorem submit_nonce_mismatch_witness :
    submitIntent nonce6Chain baseIntent = ⟨.nonceMismatch 5 6, baseIntent, none⟩ :=
  submit_nonce_mismatch nonce6Chain baseIntent (by decide) (by decide) (by decide)

/-- C8: the external key hash is the hash of the ABI encoding of the
External key-type discriminant (3) with the hash of the 32-byte
concatenation of the 20-byte policy-contract address and the 12-byte salt,
and the key hash returned by the authorize-call builder is the same for
any two account addresses. -/
theorem external_key_hash_pure (keccak : Bytes → Bytes) (m s a₁ a₂ : Bytes)
    (hm : m.length = 20) (hs : s.length = 12) :
    computeExternalKeyHash keccak m s
        = keccak (encodeUint8Bytes32 3 (keccak (m ++ s)))
    ∧ (externalPublicKey m s).length = 32
    ∧ encodeAuthorizeExternalKeyHash keccak a₁ m s
        = encodeAuthorizeExternalKeyHash keccak a₂ m s := by
  refine ⟨rfl, ?_, rfl⟩
  simp [externalPublicKey, hm, hs]

/-- C8, witness at a concrete hash oracle, address and salt. -/
theorem external_key_hash_pure_witness :
    computeExternalKeyHash hashLen msig20 salt12
        = hashLen (encodeUint8Bytes32 3 (hashLen (msig20 ++ salt12)))
    ∧ (externalPublicKey msig20 salt12).length = 32
    ∧ encodeAuthorizeExternalKeyHash hashLen [1] msig20 salt12
        = encodeAuthorizeExternalKeyHash hashLen [2] msig20 salt12 :=
  external_key_hash_pure hashLen msig20 salt12 [1] [2] (by decide) (by decide)

/-- C1, counterexample: the submit route never inspects the stored status,
so an intent already in the terminal `failed` state that still meets its
threshold and whose stored nonce equals the live sequence-0 nonce is
re-broadcast and its status changes to `confirmed`. -/
theorem terminal_status_cex :
    failedIntent.status = .failed
    ∧ (submitIntent baseChain failedIntent).intent.status = .confirmed := by
  exact ⟨rfl, rfl⟩

/-- C1, amended: submit-signature never changes the status, and
submit-intent leaves the whole intent record (status included) unchanged
whenever the stored nonce differs from the live sequence-0 nonce; but the
submit route does not check the status, so `confirmed` and `failed` are
terminal only while the stored nonce is stale, not unconditionally. -/
theorem terminal_status (ch : Chain) (I : Intent) (w : Bytes) (t : Nat) :
    (submitSignature ch I w t).2.status = I.status
    ∧ (I.nonce ≠ ch.getNonce I.account 0 → (submitIntent ch I).intent = I) := by
  constructor
  · simp only [submitSignature]
    repeat' split
    all_goals rfl
  · intro hn
    simp only [submitIntent, if_pos hn]
    split
    · rfl
    · split <;> rfl

/-- C1, witness: sign keeps the status; a stale-nonce submit keeps the
whole record. -/
theorem terminal_status_witness :
    (submitSignature baseChain baseIntent [0] 0).2.status = baseIntent.status
    ∧ (submitIntent nonce6Chain baseIntent).intent = baseIntent :=
  ⟨(terminal_status baseChain baseIntent [0] 0).1,
    (terminal_status nonce6Chain baseIntent [0] 0).2 (by decide)⟩

/-- C9: the staleness check of the submit route always reads the nonce of
sequence key 0.  If the stored sequence's own live nonce still equals the
stored nonce but sequence 0's does not, submission fails with a
nonce-mismatch against the sequence-0 value; conversely, if sequence 0
matches, the broadcast proceeds even when the stored sequence's own nonce
has moved away from the stored one. -/
theorem submit_reads_seq_zero (ch : Chain) (I : Intent) :
    (ch.relayerAvailable = true → I.threshold ≤ I.signatures.length →
      ch.getNonce I.account I.seqKey = I.nonce →
      I.nonce ≠ ch.getNonce I.account 0 →
      (submitIntent ch I).result = .nonceMismatch I.nonce (ch.getNonce I.account 0))
    ∧ (ch.relayerAvailable = true → I.threshold ≤ I.signatures.length →
      I.nonce = ch.getNonce I.account 0 →
      ch.getNonce I.account I.seqKey ≠ I.nonce →
      (submitIntent ch I).broadcasted ≠ none) := by
  constructor
  · intro hr ht _ hn
    simp only [submitIntent]
    rw [if_neg (by simp [hr]), if_neg (by omega), if_pos hn]
  · intro hr ht hn _
    simp only [submitIntent]
    rw [if_neg (by simp [hr]), if_neg (by omega), if_neg (by simp [hn])]
    split
    · simp
    · split <;> simp

/-- C9, witness: a seqKey-1 intent whose own sequence still matches fails
against sequence 0; a seqKey-1 intent whose own sequence moved on still
broadcasts because sequence 0 matches. -/
theorem submit_reads_seq_zero_witness :
    (submitIntent seqChainA seq1Intent).result = .nonceMismatch 5 6
    ∧ (submitIntent seqChainB seq1Intent).broadcasted ≠ none :=
  ⟨(submit_reads_seq_zero seqChainA seq1Intent).1 (by decide) (by decide)
      (by decide) (by decide),
    (submit_reads_seq_zero seqChainB seq1Intent).2 (by decide) (by decide)
      (by decide) (by decide)⟩

/-- C5: when the threshold is met and the live sequence-0 nonce matches,
the payload handed to the broadcast is exactly the ABI encoding of the
stored signature bytes as `bytes[]` in insertion order, concatenated with
the 32-byte policy key hash and a single trailing 0x00 prehash byte,
prefixed with the 32-byte nonce, and ABI-encoded with the call list as the
tuple `((address,uint256,bytes)[], bytes)`. -/
theorem submit_payload (ch : Chain) (I : Intent)
    (hr : ch.relayerAvailable = true)
    (ht : I.threshold ≤ I.signatures.length)
    (hn : I.nonce = ch.getNonce I.account 0) :
    (submitIntent ch I).broadcasted =
      some (encodeCallsAndBytes I.calls
        (word I.nonce ++ (encodeBytesArray (I.signatures.map SigEntry.sig)
          ++ I.externalKeyHash ++ [0]))) := by
  simp only [submitIntent]
  rw [if_neg (by simp [hr]), if_neg (by omega), if_neg (by simp [hn])]
  split
  · rfl
  · split <;> rfl

/-- C5, witness: the baseline intent's broadcast payload. -/
theorem submit_payload_witness :
    (submitIntent baseChain baseIntent).broadcasted =
      some (encodeCallsAndBytes baseIntent.calls
        (word baseIntent.nonce ++ (encodeBytesArray (baseIntent.signatures.map SigEntry.sig)
          ++ baseIntent.externalKeyHash ++ [0]))) :=
  submit_payload baseChain baseIntent (by decide) (by decide) (by decide)

/-- C6: a wrapped signature that validates but recovers an owner key hash
outside the intent's owner set is rejected with signer-not-authorized and
the intent is unchanged, whatever signatures are already stored. -/
theorem sign_unauthorized (ch : Chain) (I : Intent) (w : Bytes) (t : Nat)
    (hd : digestCheckPasses ch I = true)
    (hok : (validateWrappedSignature ch I.account I.digest w).ok = true)
    (hmem : (validateWrappedSignature ch I.account I.digest w).ownerKh ∉ I.owners) :
    submitSignature ch I w t = (.signerNotAuthorized, I) := by
  simp only [submitSignature]
  rw [if_neg (by simp [hd]), if_neg (by simp [hok]), if_pos hmem]

/-- C6, witness: a signature recovering the non-owner `owner2` is rejected
although one valid signature is already stored. -/
theorem sign_unauthorized_witness :
    submitSignature unauthChain baseIntent [0] 0 = (.signerNotAuthorized, baseIntent) :=
  sign_unauthorized unauthChain baseIntent [0] 0 (by decide) (by decide) (by decide)

/-- C3, counterexample: for a wrapped signature shorter than 97 bytes the
sign route performs no retry at all.  Here the flipped variant of the
one-byte signature `[0]` would validate, yet the route rejects with an
invalid-signature error, so the final byte was not toggled and retried. -/
theorem sign_retry_cex :
    (tryOnce flipChain emptyIntent.account emptyIntent.digest (flipLastByte [0])).ok = true
    ∧ submitSignature flipChain emptyIntent [0] 0 = (.invalidSignature, emptyIntent) := by
  exact ⟨rfl, rfl⟩

/-- C3, amended: validation is first attempted on the bytes as received;
if that attempt is invalid and the wrapped signature is at least 97 bytes
long (a 196-character hex string), the final byte is toggled (0x01 to
0x00, anything else to 0x01) and validation is retried exactly once, the
retry winning only if it validates; signatures shorter than 97 bytes are
not retried; if no attempt validates, the route rejects with an
invalid-signature error and the intent is unchanged. -/
theorem sign_retry (ch : Chain) (a d w : Bytes) (I : Intent) (t : Nat) :
    ((tryOnce ch a d w).ok = true →
      validateWrappedSignature ch a d w = tryOnce ch a d w)
    ∧ (97 ≤ w.length → (tryOnce ch a d w).ok = false →
      validateWrappedSignature ch a d w
        = (if (tryOnce ch a d (flipLastByte w)).ok then
            tryOnce ch a d (flipLastByte w) else tryOnce ch a d w))
    ∧ (w.length < 97 → validateWrappedSignature ch a d w = tryOnce ch a d w)
    ∧ ((tryOnce ch a d w).ok = false →
      (tryOnce ch a d (flipLastByte w)).ok = false →
      (validateWrappedSignature ch a d w).ok = false)
    ∧ ((validateWrappedSignature ch I.account I.digest w).ok = false →
      digestCheckPasses ch I = true →
      submitSignature ch I w t = (.invalidSignature, I)) := by
  refine ⟨?_, ?_, ?_, ?_, ?_⟩
  · intro h
    simp only [validateWrappedSignature]
    rw [if_pos h]
  · intro hl h
    simp only [validateWrappedSignature]
    rw [if_neg (by simp [h]), if_neg (by omega)]
  · intro hl
    simp only [validateWrappedSignature, if_pos hl]
    split <;> rfl
  · intro h1 h2
    simp only [validateWrappedSignature]
    rw [if_neg (by simp [h1])]
    by_cases hl : w.length < 97
    · rw [if_pos hl]
      exact h1
    · rw [if_neg hl, if_neg (by simp [h2])]
      exact h1
  · intro hv hd
    simp only [submitSignature]
    rw [if_neg (by simp [hd]), if_pos hv]

/-- C3, witness exercising each clause of the amended claim: a first
attempt that validates, a 97-byte signature whose retry is the flipped
variant, a short signature that is not retried, a doubly-invalid
signature, and the resulting rejection with the intent unchanged. -/
theorem sign_retry_witness :
    validateWrappedSignature validChain acct0 digest0 [5]
        = tryOnce validChain acct0 digest0 [5]
    ∧ validateWrappedSignature lastOneChain acct0 digest0 w97
        = (if (tryOnce lastOneChain acct0 digest0 (flipLastByte w97)).ok then
            tryOnce lastOneChain acct0 digest0 (flipLastByte w97)
          else tryOnce lastOneChain acct0 digest0 w97)
    ∧ validateWrappedSignature flipChain acct0 digest0 [0]
        = tryOnce flipChain acct0 digest0 [0]
    ∧ (validateWrappedSignature baseChain acct0 digest0 w97).ok = false
    ∧ submitSignature baseChain baseIntent [0] 0 = (.invalidSignature, baseIntent) :=
  ⟨(sign_retry validChain acct0 digest0 [5] baseIntent 0).1 (by decide),
    (sign_retry lastOneChain acct0 digest0 w97 baseIntent 0).2.1 (by decide) (by decide),
    (sign_retry flipChain acct0 digest0 [0] baseIntent 0).2.2.1 (by decide),
    (sign_retry baseChain acct0 digest0 w97 baseIntent 0).2.2.2.1 (by decide) (by decide),
    (sign_retry baseChain acct0 digest0 [0] baseIntent 0).2.2.2.2 (by decide) (by decide)⟩

/-- C7: if submitting a wrapped signature appended a new owner entry and
reported count `k`, submitting the same wrapped signature again on the
resulting intent succeeds as a duplicate, reports the same count `k` and
threshold, and leaves the intent record untouched. -/
theorem sign_duplicate_idempotent (ch : Chain) (I : Intent) (w : Bytes)
    (t₁ t₂ k M : Nat) (r : Bool) (I' : Intent)
    (h : submitSignature ch I w t₁ = (.added k M r, I')) :
    submitSignature ch I' w t₂ = (.duplicate k M, I') := by
  simp only [submitSignature] at h
  by_cases hd : digestCheckPasses ch I = false
  · rw [if_pos hd] at h
    simp at h
  rw [if_neg hd] at h
  by_cases hok : (validateWrappedSignature ch I.account I.digest w).ok = false
  · rw [if_pos hok] at h
    simp at h
  rw [if_neg hok] at h
  by_cases hmem : (validateWrappedSignature ch I.account I.digest w).ownerKh ∉ I.owners
  · rw [if_pos hmem] at h
    simp at h
  rw [if_neg hmem] at h
  by_cases hdup : ∃ s ∈ I.signatures,
      s.ownerKeyHash = (validateWrappedSignature ch I.account I.digest w).ownerKh
  · rw [if_pos hdup] at h
    simp at h
  rw [if_neg hdup] at h
  injection h with h1 h2
  injection h1 with hk hM hr
  subst h2 hk hM
  simp only [submitSignature, digestCheckPasses_setSigs]
  rw [if_neg hd, if_neg hok, if_neg hmem,
    if_pos ⟨⟨(validateWrappedSignature ch I.account I.digest w).ownerKh,
      (validateWrappedSignature ch I.account I.digest w).sig, t₁⟩, by simp, rfl⟩]

/-- C7, witness: a first acceptance at threshold 2 reports count 1; the
identical resubmission reports count 1 again and changes nothing. -/
theorem sign_duplicate_idempotent_witness :
    submitSignature validChain (submitSignature validChain thresh2Intent [0] 0).2 [0] 1
      = (.duplicate 1 2, (submitSignature validChain thresh2Intent [0] 0).2) :=
  sign_duplicate_idempotent validChain thresh2Intent [0] 0 1 1 2 false
    (submitSignature validChain thresh2Intent [0] 0).2 (by decide)

/-- C10: when the as-received attempt fails and the flipped-prehash
attempt validates for an authorized, not-yet-seen owner, the sign route
stores the flipped bytes, not the submitted ones, so the aggregated
signature list of the updated intent ends with the flipped variant. -/
theorem sign_stores_flipped (ch : Chain) (I : Intent) (w : Bytes) (t : Nat)
    (hd : digestCheckPasses ch I = true)
    (h1 : (tryOnce ch I.account I.digest w).ok = false)
    (hlen : 97 ≤ w.length)
    (h2 : (tryOnce ch I.account I.digest (flipLastByte w)).ok = true)
    (hmem : (tryOnce ch I.account I.digest (flipLastByte w)).ownerKh ∈ I.owners)
    (hnew : ∀ s ∈ I.signatures,
      s.ownerKeyHash ≠ (tryOnce ch I.account I.digest (flipLastByte w)).ownerKh) :
    (submitSignature ch I w t).2.signatures
        = I.signatures
          ++ [⟨(tryOnce ch I.account I.digest (flipLastByte w)).ownerKh, flipLastByte w, t⟩]
    ∧ (submitSignature ch I w t).2.signatures.map SigEntry.sig
        = I.signatures.map SigEntry.sig ++ [flipLastByte w] := by
  have hval : validateWrappedSignature ch I.account I.digest w
      = tryOnce ch I.account I.digest (flipLastByte w) := by
    simp only [validateWrappedSignature]
    rw [if_neg (by simp [h1]), if_neg (by omega), if_pos h2]
  simp only [submitSignature, hval]
  rw [if_neg (by simp [hd]), if_neg (by simp [h2]), if_neg (fun hc => hc hmem),
    if_neg (by rintro ⟨s, hs, he⟩; exact hnew s hs he)]
  constructor
  · simp [tryOnce_sig]
  · simp [tryOnce_sig]

/-- C10, witness: a 97-byte all-zero signature validates only with its
final byte flipped to 1; the stored and aggregated bytes are the flipped
variant. -/
theorem sign_stores_flipped_witness :
    (submitSignature lastOneChain emptyIntent w97 0).2.signatures
        = emptyIntent.signatures
          ++ [⟨(tryOnce lastOneChain emptyIntent.account emptyIntent.digest
                (flipLastByte w97)).ownerKh, flipLastByte w97, 0⟩]
    ∧ (submitSignature lastOneChain emptyIntent w97 0).2.signatures.map SigEntry.sig
        = emptyIntent.signatures.map SigEntry.sig ++ [flipLastByte w97] :=
  sign_stores_flipped lastOneChain emptyIntent w97 0 (by decide) (by decide)
    (by decide) (by decide) (by decide) (by decide)

end PortoMultisig
